import Mathlib

/-!
Verification development for the AITaskMaster REST API (`src/server.js`).

The server is a single Express module: an authentication middleware
(`verifyToken`), two auth endpoints (register, login) and four task CRUD
endpoints, all backed by a Postgres pool.  We embed each handler as a pure
Lean function over an explicit database state (a list of rows), modelling
the external capabilities (Postgres, bcryptjs, jsonwebtoken) faithfully
enough to settle the claims, including the JavaScript-level behaviour of
property access on arrays (`result.rows` is an array; reading `.id` from it
yields `undefined`) and of `jwt.verify` when handed a non-string argument.
-/

/-! ### Character-level string utilities

The handlers use `String.prototype.split`, `String.prototype.includes` and
decimal rendering of numbers.  We implement them structurally over `List
Char` so every concrete computation reduces. -/

/-- Split a character list at every occurrence of the separator character,
mirroring JavaScript `s.split(sep)` for a one-character separator (adjacent
separators and boundary separators produce empty components). -/
def splitChar (sep : Char) : List Char → List (List Char)
  | [] => [[]]
  | c :: cs =>
      let r := splitChar sep cs
      if c = sep then [] :: r
      else
        match r with
        | h :: t => (c :: h) :: t
        | [] => [[c]]

/-- JavaScript `s.split(' ')`, as used on the Authorization header. -/
def jsSplitSpace (s : String) : List String :=
  (splitChar ' ' s.data).map String.mk

/-- If the first list is a leading segment of the second, return the rest. -/
def stripLead : List Char → List Char → Option (List Char)
  | [], l => some l
  | _ :: _, [] => none
  | p :: ps, c :: cs => if p = c then stripLead ps cs else none

/-- Whether the pattern occurs as a contiguous segment of the list. -/
def hasSub (pat : List Char) : List Char → Bool
  | [] => (stripLead pat []).isSome
  | c :: rest => (stripLead pat (c :: rest)).isSome || hasSub pat rest

/-- JavaScript `s.includes(pat)` (substring test). -/
def strIncludes (s pat : String) : Bool :=
  hasSub pat.data s.data

/-- Decimal digits of a natural number. -/
def natChars (n : Nat) : List Char :=
  Nat.toDigits 10 n

/-- Parse a non-empty all-digit character list as a decimal natural. -/
def parseNatChars (l : List Char) : Option Nat :=
  if l = [] then none
  else l.foldl
    (fun acc c =>
      match acc with
      | none => none
      | some n => if c.isDigit then some (n * 10 + (c.toNat - 48)) else none)
    (some 0)

/-- Model of the JavaScript values that flow through the handlers. -/
inductive JSVal where
  | undefined : JSVal
  | vnull : JSVal
  | vbool : Bool → JSVal
  | vnum : Nat → JSVal
  | vstr : String → JSVal
  | varr : List JSVal → JSVal
  | vobj : List (String × JSVal) → JSVal

/-- Property lookup in a JavaScript object's field list (first match wins,
missing fields read as `undefined`). -/
def lookupField : List (String × JSVal) → String → JSVal
  | [], _ => .undefined
  | (k, v) :: rest, name => if k = name then v else lookupField rest name

/-- JavaScript property access `v.name`.  On objects it is field lookup; on
arrays only `length` and decimal indices are populated, so a named field such
as `id` or `password_hash` reads as `undefined`; on every other value it
yields `undefined` (the handlers never access properties of primitives). -/
def getProp : JSVal → String → JSVal
  | .vobj fs, name => lookupField fs name
  | .varr es, name =>
      if name = "length" then .vnum es.length
      else
        match parseNatChars name.data with
        | some i => (es.getD i .undefined)
        | none => .undefined
  | _, _ => .undefined

/-! ### External capabilities: jsonwebtoken and bcryptjs

The Token Service signs a claim set carrying the subject and an expiry 24
hours after issuance; verification checks the MAC against the server secret
and the expiry against the clock, and — exactly as `jsonwebtoken` does —
rejects any argument that is not a string before looking at its content.
The concrete MAC is an executable stand-in for the HMAC primitive. -/

/-- Claim set carried by a token: the `sub` claim as the JavaScript value
that was signed (it is `undefined` when the payload had no usable id), and
the expiry timestamp in seconds. -/
structure JwtPayload where
  sub : JSVal
  exp : Nat

/-- Executable stand-in for the signing primitive's MAC. -/
def charsHash (l : List Char) : Nat :=
  l.foldl (fun a c => a * 131 + c.toNat) 7

/-- Serialisation of the claim set: an (optional) `sub` claim followed by the
`exp` claim.  A `sub` that is `undefined` is dropped from the payload, as
`JSON.stringify` drops `undefined`-valued fields. -/
def payloadChars (sub : JSVal) (e : Nat) : List Char :=
  (match sub with
    | .vnum n => "sub=".data ++ natChars n ++ "&".data
    | _ => []) ++ "exp=".data ++ natChars e

/-- Model of `jwt.sign` with payload `sub` and a 24-hour expiry, at clock time `now`:
the token is the serialised payload plus a MAC keyed by the secret. -/
def jwtSign (sub : JSVal) (secret : String) (now : Nat) : String :=
  let p := payloadChars sub (now + 86400)
  String.mk (p ++ ".".data ++ natChars (charsHash (secret.data ++ p)))

/-- Parse a serialised claim set back into a `JwtPayload`. -/
def decPayloadChars (p : List Char) : Option JwtPayload :=
  match splitChar '&' p with
  | [e] =>
      match stripLead "exp=".data e with
      | some d => (parseNatChars d).map (fun x => ⟨.undefined, x⟩)
      | none => none
  | [s, e] =>
      match stripLead "sub=".data s, stripLead "exp=".data e with
      | some sd, some ed =>
          match parseNatChars sd, parseNatChars ed with
          | some n, some x => some ⟨.vnum n, x⟩
          | _, _ => none
      | _, _ => none
  | _ => none

/-- Model of `jwt.verify(arg, secret)` at clock time `now`.  A non-string argument is
rejected up front ("jwt must be a string"); a string is split into payload
and MAC, the MAC is checked against the secret, and the expiry is checked
against the clock. -/
def jwtVerifyJS (v : JSVal) (secret : String) (now : Nat) :
    Except String JwtPayload :=
  match v with
  | .vstr s =>
      match splitChar '.' s.data with
      | [p, m] =>
          if m = natChars (charsHash (secret.data ++ p)) then
            match decPayloadChars p with
            | some pl =>
                if now < pl.exp then .ok pl else .error "jwt expired"
            | none => .error "invalid token"
          else .error "invalid signature"
      | _ => .error "jwt malformed"
  | _ => .error "jwt must be a string"

/-- Model of `bcrypt.hashSync(pw, 10)`: an executable stand-in for the one-way hash. -/
def bhash (pw : String) : String :=
  String.mk ("bc$".data ++ natChars (charsHash pw.data))

/-- Model of `bcrypt.compareSync(s, hash)`: succeeds on a string hash with the
comparison result, and throws "Illegal arguments" when the hash argument is
not a string (as bcryptjs does on `undefined`). -/
def bcryptCompareSync (s : String) (hash : JSVal) : Except String Bool :=
  match hash with
  | .vstr h => .ok (h = bhash s)
  | _ => .error "Illegal arguments"

/-! ### Data model

The two relations created at startup: `users(id, email UNIQUE, password_hash,
created_at)` and `tasks(id, user_id, title NOT NULL, description, category,
priority DEFAULT MEDIUM, status DEFAULT TODO, suggested_deadline,
actual_deadline, ai_analyzed, created_at, updated_at)`.  Timestamps are
naturals; nullable columns are `Option`s; `title` is `NOT NULL` and hence a
plain `String`. -/

structure UserRow where
  id : Nat
  email : String
  password_hash : String
  created_at : Nat
deriving Repr, DecidableEq

structure TaskRow where
  id : Nat
  user_id : Nat
  title : String
  description : Option String
  category : Option String
  priority : Option String
  status : Option String
  suggested_deadline : Option Nat
  actual_deadline : Option Nat
  ai_analyzed : Bool
  created_at : Nat
  updated_at : Nat
deriving Repr, DecidableEq

/-- JSON error response: HTTP status code plus the `error` message. -/
structure ApiErr where
  status : Nat
  error : String
deriving Repr, DecidableEq

/-- A storage failure surfaced by the pg driver: the SQLSTATE code and the
human-readable message. -/
structure DbError where
  code : String
  message : String
deriving Repr, DecidableEq

/-- SQLSTATE of a unique-constraint violation in Postgres. -/
def uniqueViolationCode : String := "23505"

/-- JavaScript truthiness of a request field modelled as `Option String`:
`undefined` and the empty string are falsy. -/
def jsPresent : Option String → Bool
  | none => false
  | some s => s ≠ ""

/-! ### Access Guard (`verifyToken`, server.js lines 49–60)

The middleware reads the Authorization header, computes
`req.headers.authorization?.split(' ')` — note that the result of `split` is
an **array** and the code never selects the token element from it — and
passes that value to `jwt.verify`.  On success it would store `decoded.sub`
in `req.user_id`. -/

/-- Embedding of `verifyToken`: the argument is the raw Authorization header
(or `none` when absent); the result is the value stored in `req.user_id`, or
the 401 response sent. -/
def verifyToken (authHeader : Option String) (secret : String) (now : Nat) :
    Except ApiErr JSVal :=
  match authHeader with
  | none => .error ⟨401, "No token"⟩
  | some h =>
      let token : JSVal := .varr ((jsSplitSpace h).map JSVal.vstr)
      match jwtVerifyJS token secret now with
      | .ok decoded => .ok decoded.sub
      | .error _ => .error ⟨401, "Invalid token"⟩

/-! ### Auth Service (server.js lines 65–128) -/

/-- Successful auth response body: `{ access_token, token_type, user }`. -/
structure AuthOk where
  access_token : String
  token_type : String
  user : JSVal

/-- The `catch` block of the register handler (lines 86–91): a storage
failure whose message contains the substring `duplicate` is answered with
400 "Email already exists"; every other failure with 500. -/
def registerCatch (e : DbError) : ApiErr :=
  if strIncludes e.message "duplicate" then ⟨400, "Email already exists"⟩
  else ⟨500, "Registration failed"⟩

/-- Message Postgres attaches to a violation of the users email unique
constraint (English locale). -/
def dupEmailMsg : String :=
  "duplicate key value violates unique constraint users_email_key"

/-- Fresh SERIAL id for an insert into a table whose existing ids are given. -/
def nextId (ids : List Nat) : Nat :=
  ids.foldl max 0 + 1

/-- The pg driver's row object for `RETURNING id, email`. -/
def returningIdEmail (id : Nat) (email : String) : JSVal :=
  .vobj [("id", .vnum id), ("email", .vstr email)]

/-- Embedding of `POST /api/auth/register` (lines 65–92).  Validates
presence, hashes the password, inserts the user (the store enforcing email
uniqueness), then builds the response.  Note line 78: `const user =
result.rows` binds the **array** of returned rows, so `user.id` and
`user.email` are `undefined`.  Returns the response together with the users
table after the call. -/
def register (db : List UserRow) (secret : String)
    (email password : Option String) (now : Nat) :
    Except ApiErr AuthOk × List UserRow :=
  match email, password with
  | some em, some pw =>
      if em = "" || pw = "" then
        (.error ⟨400, "Email and password required"⟩, db)
      else if db.any (fun u => u.email = em) then
        (.error (registerCatch ⟨uniqueViolationCode, dupEmailMsg⟩), db)
      else
        let uid := nextId (db.map UserRow.id)
        let row : UserRow := ⟨uid, em, bhash pw, now⟩
        let user : JSVal := .varr [returningIdEmail uid em]
        let token := jwtSign (getProp user "id") secret now
        (.ok ⟨token, "bearer",
              .vobj [("id", getProp user "id"), ("email", getProp user "email")]⟩,
         db ++ [row])
  | _, _ => (.error ⟨400, "Email and password required"⟩, db)

/-- The pg driver's row object for `SELECT * FROM users`. -/
def userRowJS (u : UserRow) : JSVal :=
  .vobj [("id", .vnum u.id), ("email", .vstr u.email),
         ("password_hash", .vstr u.password_hash),
         ("created_at", .vnum u.created_at)]

/-- Embedding of `POST /api/auth/login` (lines 95–128).  Validates presence,
selects the user by email, and compares the password against
`user.password_hash` — where `user` is again bound to `result.rows` (line
111), the array, so the hash handed to bcrypt is `undefined` and
`compareSync` throws, landing in the catch block (500 "Login failed"). -/
def login (db : List UserRow) (secret : String)
    (email password : Option String) (now : Nat) :
    Except ApiErr AuthOk :=
  match email, password with
  | some em, some pw =>
      if em = "" || pw = "" then .error ⟨400, "Email and password required"⟩
      else
        let rows := db.filter (fun u => u.email = em)
        if rows.length = 0 then .error ⟨401, "Invalid credentials"⟩
        else
          let user : JSVal := .varr (rows.map userRowJS)
          match bcryptCompareSync pw (getProp user "password_hash") with
          | .error _ => .error ⟨500, "Login failed"⟩
          | .ok ok =>
              if !ok then .error ⟨401, "Invalid credentials"⟩
              else
                .ok ⟨jwtSign (getProp user "id") secret now, "bearer",
                     .vobj [("id", getProp user "id"),
                            ("email", getProp user "email")]⟩
  | _, _ => .error ⟨400, "Email and password required"⟩

/-! ### Task Service (server.js lines 133–253)

Every task query filters by `user_id = req.user_id`; the handlers below take
that owner id as an argument (it is what the middleware would have stored).
The tasks table is the explicit `db` argument. -/

/-- The WHERE clause `id = $tid AND user_id = $uid` shared by get, update
and delete. -/
def taskMatch (uid tid : Nat) (t : TaskRow) : Bool :=
  t.id == tid && t.user_id == uid

/-- Embedding of `GET /api/tasks/:id` (lines 169–184): select the rows
matching id and owner; an empty result is 404, otherwise the handler sends
`result.rows`. -/
def getTask (db : List TaskRow) (uid tid : Nat) :
    Except ApiErr (List TaskRow) :=
  let rows := db.filter (taskMatch uid tid)
  if rows.length = 0 then .error ⟨404, "Task not found"⟩ else .ok rows

/-- Ordering of `ORDER BY created_at DESC`: newest first. -/
def createdDesc (a b : TaskRow) : Prop :=
  b.created_at ≤ a.created_at

instance : DecidableRel createdDesc := fun a b =>
  inferInstanceAs (Decidable (b.created_at ≤ a.created_at))

instance : IsTotal TaskRow createdDesc :=
  ⟨fun a b => Nat.le_total b.created_at a.created_at⟩

instance : IsTrans TaskRow createdDesc :=
  ⟨fun _ _ _ hab hbc => Nat.le_trans hbc hab⟩

/-- Embedding of `GET /api/tasks` (lines 149–166): the owner's rows, further
restricted by `status = $2` only when `req.query.status` is truthy (so an
absent query and an empty-string query both select the unfiltered query),
ordered by `created_at` descending; the response carries the rows and
`total = rows.length`. -/
def listTasks (db : List TaskRow) (uid : Nat) (statusQ : Option String) :
    List TaskRow × Nat :=
  let rows :=
    if jsPresent statusQ then
      List.insertionSort createdDesc
        (db.filter (fun t => t.user_id == uid && t.status == some (statusQ.getD "")))
    else
      List.insertionSort createdDesc (db.filter (fun t => t.user_id == uid))
  (rows, rows.length)

/-- The update request body, destructured on line 188.  Each recognized
field is `none` when absent from the JSON body (`undefined`), `some none`
when explicitly `null`, and `some (some s)` when set to a string. -/
structure Patch where
  title : Option (Option String)
  description : Option (Option String)
  category : Option (Option String)
  priority : Option (Option String)
  status : Option (Option String)
deriving Repr, DecidableEq

/-- Whether the dynamically built `updates` list (lines 191–219) is empty:
every `field !== undefined` check failed. -/
def Patch.isEmpty (p : Patch) : Bool :=
  !p.title.isSome && !p.description.isSome && !p.category.isSome &&
    !p.priority.isSome && !p.status.isSome

/-- A single SET assignment for a nullable column: absent fields keep the
current value, a present field (including an explicit `null`) overwrites. -/
def applyCol (cur : Option String) (f : Option (Option String)) :
    Option String :=
  match f with
  | none => cur
  | some v => v

/-- The row produced by the SET clause of the UPDATE statement (including
`updated_at = CURRENT_TIMESTAMP`).  The `title = NULL` assignment never
produces a row: the store raises a not-null violation first (handled in
`updateTask`), so that branch keeps the current title. -/
def updateRow (t : TaskRow) (p : Patch) (now : Nat) : TaskRow :=
  { t with
    title := match p.title with | some (some s) => s | _ => t.title
    description := applyCol t.description p.description
    category := applyCol t.category p.category
    priority := applyCol t.priority p.priority
    status := applyCol t.status p.status
    updated_at := now }

/-- Embedding of `PATCH /api/tasks/:id` (lines 187–240).  An empty patch is
answered 400 before any query runs.  Otherwise the UPDATE runs against the
rows matching id and owner: if the patch sets `title` to `null` and a row
matches, the store's NOT NULL constraint on `title` aborts the statement and
the catch block answers 500; if no row matches, `RETURNING *` is empty and
the handler answers 404; otherwise the matching rows are rewritten and
returned.  The second component is the tasks table after the call. -/
def updateTask (db : List TaskRow) (uid tid : Nat) (p : Patch) (now : Nat) :
    Except ApiErr (List TaskRow) × List TaskRow :=
  if p.isEmpty then (.error ⟨400, "No updates provided"⟩, db)
  else
    let matched := db.filter (taskMatch uid tid)
    if p.title == some none && matched.length != 0 then
      (.error ⟨500, "Update failed"⟩, db)
    else if matched.length = 0 then (.error ⟨404, "Task not found"⟩, db)
    else
      (.ok (matched.map (fun t => updateRow t p now)),
       db.map (fun t => if taskMatch uid tid t then updateRow t p now else t))

/-- Embedding of `DELETE /api/tasks/:id` (lines 243–253): remove the rows
matching id and owner and answer `{ success: true }` regardless of whether
anything matched. -/
def deleteTask (db : List TaskRow) (uid tid : Nat) : Bool × List TaskRow :=
  (true, db.filter (fun t => !taskMatch uid tid t))

/-! ### Helper lemmas -/

/-- Unfold the shared WHERE clause into propositional form. -/
theorem taskMatch_eq_true {uid tid : Nat} {t : TaskRow} :
    taskMatch uid tid t = true ↔ (t.id = tid ∧ t.user_id = uid) := by
  simp [taskMatch]

/-- Negated form of the WHERE clause. -/
theorem taskMatch_eq_false {uid tid : Nat} {t : TaskRow} :
    taskMatch uid tid t = false ↔ ¬(t.id = tid ∧ t.user_id = uid) := by
  rw [← Bool.not_eq_true, taskMatch_eq_true]

/-- With primary-key ids, at most one row matches the WHERE clause: when a
row `t` of the table does, the selection is exactly `[t]`. -/
theorem filter_taskMatch_single {db : List TaskRow} {uid tid : Nat}
    {t : TaskRow} (hnd : (db.map TaskRow.id).Nodup) (ht : t ∈ db)
    (hm : taskMatch uid tid t = true) :
    db.filter (taskMatch uid tid) = [t] := by
  induction db with
  | nil => cases ht
  | cons a l ih =>
      rw [List.map_cons, List.nodup_cons] at hnd
      rcases List.mem_cons.mp ht with rfl | hmem
      · rw [List.filter_cons, if_pos hm]
        have : l.filter (taskMatch uid tid) = [] := by
          rw [List.filter_eq_nil_iff]
          intro u hu hmu
          rw [taskMatch_eq_true] at hm hmu
          apply hnd.1
          rw [hm.1, ← hmu.1]
          exact List.mem_map_of_mem TaskRow.id hu
        rw [this]
      · have hna : taskMatch uid tid a = false := by
          rw [← Bool.not_eq_true, taskMatch_eq_true]
          rintro ⟨ha1, _⟩
          rw [taskMatch_eq_true] at hm
          exact hnd.1 (ha1 ▸ hm.1 ▸ List.mem_map_of_mem TaskRow.id hmem)
        rw [List.filter_cons, if_neg (by simp [hna])]
        exact ih hnd.2 hmem

/-- When the table holds a row with the requested id but a different owner,
and ids are unique, no row at all matches the WHERE clause. -/
theorem no_taskMatch_of_other_owner {db : List TaskRow} {a b tid : Nat}
    {t : TaskRow} (hab : a ≠ b) (ht : t ∈ db) (hid : t.id = tid)
    (hb : t.user_id = b) (hnd : (db.map TaskRow.id).Nodup) :
    ∀ u ∈ db, taskMatch a tid u = false := by
  intro u hu
  rw [← Bool.not_eq_true, taskMatch_eq_true]
  rintro ⟨h1, h2⟩
  have hut : u = t :=
    List.inj_on_of_nodup_map hnd hu ht (by rw [h1, hid])
  apply hab
  rw [← h2, hut, hb]

/-! ### Claims -/

/-- Claim C1, counterexample: user 1 presents a valid identity and deletes
the id of a task owned by user 2.  The claim says all three of get, update
and delete yield NotFound, but the delete handler answers
`{ success: true }` (it runs the owner-scoped DELETE, which matches nothing,
and reports success unconditionally), so the delete part of the claim is
false.  The task itself is untouched. -/
theorem C1_delete_reports_success :
    deleteTask
      [⟨10, 2, "b task", none, none, some "MEDIUM", some "TODO",
        none, none, false, 0, 0⟩] 1 10
    = (true,
       [⟨10, 2, "b task", none, none, some "MEDIUM", some "TODO",
         none, none, false, 0, 0⟩]) := rfl

/-- Claim C1 (amended): with unique task ids, a request carrying user `a`'s
identity against a task id owned by a different user `b` yields NotFound for
get and for update (with any non-empty patch), while delete reports success;
none of the three operations reads, modifies or removes `b`'s task — the
tasks table is unchanged in every case. -/
theorem C1_ownership_isolation (db : List TaskRow) (a b tid : Nat)
    (t : TaskRow) (p : Patch) (now : Nat)
    (hab : a ≠ b) (ht : t ∈ db) (hid : t.id = tid) (hb : t.user_id = b)
    (hnd : (db.map TaskRow.id).Nodup) :
    getTask db a tid = .error ⟨404, "Task not found"⟩ ∧
    (Patch.isEmpty p = false →
      updateTask db a tid p now = (.error ⟨404, "Task not found"⟩, db)) ∧
    (updateTask db a tid p now).2 = db ∧
    deleteTask db a tid = (true, db) := by
  have hnone : ∀ u ∈ db, taskMatch a tid u = false :=
    no_taskMatch_of_other_owner hab ht hid hb hnd
  have hflt : db.filter (taskMatch a tid) = [] := by
    rw [List.filter_eq_nil_iff]
    intro u hu
    simp [hnone u hu]
  refine ⟨?_, ?_, ?_, ?_⟩
  · simp [getTask, hflt]
  · intro hne
    simp [updateTask, hne, hflt]
  · by_cases hne : Patch.isEmpty p
    · simp [updateTask, hne]
    · simp [updateTask, hne, hflt]
  · have : db.filter (fun t => !taskMatch a tid t) = db := by
      rw [List.filter_eq_self]
      intro u hu
      simp [hnone u hu]
    rw [deleteTask, this]

/-- Claim C1 (amended), witness at concrete input: user 1 against task 10
owned by user 2. -/
theorem C1_ownership_isolation_witness :
    getTask
      [⟨10, 2, "b task", none, none, some "MEDIUM", some "TODO",
        none, none, false, 0, 0⟩] 1 10 = .error ⟨404, "Task not found"⟩ :=
  (C1_ownership_isolation
    [⟨10, 2, "b task", none, none, some "MEDIUM", some "TODO",
      none, none, false, 0, 0⟩] 1 2 10
    ⟨10, 2, "b task", none, none, some "MEDIUM", some "TODO",
     none, none, false, 0, 0⟩
    ⟨some (some "x"), none, none, none, none⟩ 5
    (by decide) (by simp) rfl rfl (by simp)).1

/-- Claim C2: the Access Guard never authenticates any request.  Line 50
binds `token` to `authorization?.split(' ')` — the whole array — and never
selects the token element, so `jwt.verify` receives a non-string and throws
for every present header ("Invalid token"), while an absent header is
answered "No token".  In particular a perfectly well-formed `Bearer <token>`
header whose token the Token Service itself accepts (second conjunct) is
rejected (third conjunct), contradicting the claim that valid headers yield
the subject user id. -/
theorem C2_guard_never_authenticates :
    (∀ (h : Option String) (secret : String) (now : Nat),
        ∃ msg, verifyToken h secret now = .error ⟨401, msg⟩) ∧
    jwtVerifyJS (.vstr (jwtSign (.vnum 7) "s3cr3t" 5)) "s3cr3t" 6 =
      .ok ⟨.vnum 7, 86405⟩ ∧
    verifyToken (some ("Bearer " ++ jwtSign (.vnum 7) "s3cr3t" 5))
      "s3cr3t" 6 = .error ⟨401, "Invalid token"⟩ := by
  refine ⟨fun h secret now => ?_, rfl, rfl⟩
  cases h with
  | none => exact ⟨"No token", rfl⟩
  | some s => exact ⟨"Invalid token", rfl⟩

/-- Claim C3: a successful registration creates the user row (id 1 here),
but line 78 binds `user` to `result.rows` — the array — so `user.id` and
`user.email` are `undefined`: the token is signed with an `undefined`
subject (the issued token carries no `sub` claim at all, second conjunct)
and the user summary carries `undefined` in place of the id and email,
contradicting the claim that the token's subject and the summary are the new
user's id and email. -/
theorem C3_register_loses_identity :
    register [] "s" (some "a@x.com") (some "pw1") 0 =
      (.ok ⟨jwtSign .undefined "s" 0, "bearer",
            .vobj [("id", .undefined), ("email", .undefined)]⟩,
       [⟨1, "a@x.com", bhash "pw1", 0⟩]) ∧
    jwtVerifyJS (.vstr (jwtSign .undefined "s" 0)) "s" 0 = .ok ⟨.undefined, 86400⟩ ∧
    getProp (JSVal.vobj [("id", JSVal.undefined), ("email", JSVal.undefined)]) "id"
      ≠ .vnum 1 :=
  ⟨rfl, rfl, fun h => JSVal.noConfusion h⟩

/-- Claim C4: the register catch block classifies a storage failure as an
email conflict by `err.message.includes('duplicate')` — substring matching —
not by the uniqueness-violation condition (SQLSTATE 23505).  A failure that
is not a uniqueness violation but whose message contains "duplicate" is
answered as EmailConflict (first conjunct), and a genuine uniqueness
violation whose message is localized is answered as InternalError (third
conjunct). -/
theorem C4_substring_classification :
    registerCatch ⟨"P0001", "duplicate task detected"⟩ =
      ⟨400, "Email already exists"⟩ ∧
    ("P0001" : String) ≠ uniqueViolationCode ∧
    registerCatch ⟨uniqueViolationCode,
      "un valore chiave duplicato viola il vincolo univoco users_email_key"⟩
      = ⟨500, "Registration failed"⟩ :=
  ⟨rfl, by decide, rfl⟩

/-- Claim C5: the two login failure cases are distinguishable.  With a
registered user `a@x.com`, a wrong password reaches
`bcrypt.compareSync(password, user.password_hash)` where `user` is the rows
**array** (line 111), so the hash is `undefined`, compareSync throws, and
the response is 500 "Login failed" — while an unknown email is answered 401
"Invalid credentials".  The two responses differ in both status and message
(and even the correct password yields the 500, third conjunct). -/
theorem C5_login_failures_distinguishable :
    login [⟨1, "a@x.com", bhash "pw1", 0⟩] "s"
        (some "a@x.com") (some "wrong") 0 = .error ⟨500, "Login failed"⟩ ∧
    login [⟨1, "a@x.com", bhash "pw1", 0⟩] "s"
        (some "b@x.com") (some "pw1") 0 =
      .error ⟨401, "Invalid credentials"⟩ ∧
    login [⟨1, "a@x.com", bhash "pw1", 0⟩] "s"
        (some "a@x.com") (some "pw1") 0 = .error ⟨500, "Login failed"⟩ ∧
    (⟨500, "Login failed"⟩ : ApiErr) ≠ ⟨401, "Invalid credentials"⟩ :=
  ⟨rfl, rfl, rfl, by decide⟩

/-- Claim C7: a patch with none of the five recognized fields present is
answered 400 "No updates provided" before any query runs, and the tasks
table is unchanged. -/
theorem C7_empty_patch_validation_error (db : List TaskRow)
    (uid tid now : Nat) (p : Patch)
    (h : p.title = none ∧ p.description = none ∧ p.category = none ∧
         p.priority = none ∧ p.status = none) :
    updateTask db uid tid p now = (.error ⟨400, "No updates provided"⟩, db) := by
  obtain ⟨h1, h2, h3, h4, h5⟩ := h
  simp [updateTask, Patch.isEmpty, h1, h2, h3, h4, h5]

/-- Claim C7, witness: the empty patch against an existing task. -/
theorem C7_empty_patch_validation_error_witness :
    updateTask
      [⟨1, 1, "t0", none, none, some "MEDIUM", some "TODO",
        none, none, false, 0, 0⟩] 1 1 ⟨none, none, none, none, none⟩ 9
    = (.error ⟨400, "No updates provided"⟩,
       [⟨1, 1, "t0", none, none, some "MEDIUM", some "TODO",
         none, none, false, 0, 0⟩]) :=
  C7_empty_patch_validation_error _ 1 1 9 _ (by decide)

/-- Claim C9: delete always reports success, and the resulting table holds
exactly the rows that did not match the requested id and owner — so a
matching row is removed, and a miss (non-existent or foreign task) is not an
error. -/
theorem C9_delete_idempotent_success (db : List TaskRow) (uid tid : Nat) :
    (deleteTask db uid tid).1 = true ∧
    ∀ t : TaskRow, t ∈ (deleteTask db uid tid).2 ↔
      (t ∈ db ∧ ¬(t.id = tid ∧ t.user_id = uid)) := by
  refine ⟨rfl, fun t => ?_⟩
  simp only [deleteTask, List.mem_filter, Bool.not_eq_true']
  rw [taskMatch_eq_false]

/-- Claim C6: when an update succeeds on the caller's task `t` (unique ids),
the returned row is exactly `t` rewritten by the SET clause: every recognized
field present in the patch takes its new value (for the nullable columns the
new value may be `null`), every absent field keeps its prior value,
`updated_at` is bumped to now in the same update, the server-controlled
columns (id, owner, created_at, deadlines, ai_analyzed) are untouched, the
rewritten row is in the resulting table and every non-matching row survives
unchanged. -/
theorem C6_update_partial_semantics (db : List TaskRow) (uid tid : Nat)
    (p : Patch) (now : Nat) (rows db' : List TaskRow) (t : TaskRow)
    (ht : t ∈ db) (hid : t.id = tid) (hown : t.user_id = uid)
    (hnd : (db.map TaskRow.id).Nodup)
    (hok : updateTask db uid tid p now = (.ok rows, db')) :
    rows = [updateRow t p now] ∧
    updateRow t p now ∈ db' ∧
    (∀ u ∈ db, ¬(u.id = tid ∧ u.user_id = uid) → u ∈ db') ∧
    p.title ≠ some none ∧
    (∀ s, p.title = some (some s) → (updateRow t p now).title = s) ∧
    (p.title = none → (updateRow t p now).title = t.title) ∧
    (∀ v, p.description = some v → (updateRow t p now).description = v) ∧
    (p.description = none →
      (updateRow t p now).description = t.description) ∧
    (∀ v, p.category = some v → (updateRow t p now).category = v) ∧
    (p.category = none → (updateRow t p now).category = t.category) ∧
    (∀ v, p.priority = some v → (updateRow t p now).priority = v) ∧
    (p.priority = none → (updateRow t p now).priority = t.priority) ∧
    (∀ v, p.status = some v → (updateRow t p now).status = v) ∧
    (p.status = none → (updateRow t p now).status = t.status) ∧
    (updateRow t p now).updated_at = now ∧
    (updateRow t p now).id = t.id ∧
    (updateRow t p now).user_id = t.user_id ∧
    (updateRow t p now).created_at = t.created_at ∧
    (updateRow t p now).ai_analyzed = t.ai_analyzed ∧
    (updateRow t p now).suggested_deadline = t.suggested_deadline ∧
    (updateRow t p now).actual_deadline = t.actual_deadline := by
  have hm : taskMatch uid tid t = true := taskMatch_eq_true.mpr ⟨hid, hown⟩
  have hflt : db.filter (taskMatch uid tid) = [t] :=
    filter_taskMatch_single hnd ht hm
  by_cases he : Patch.isEmpty p
  · simp [updateTask, he] at hok
  · by_cases hnull : p.title = some none
    · simp [updateTask, he, hflt, hnull] at hok
    · simp [updateTask, he, hflt, hnull] at hok
      obtain ⟨hrows, hdb⟩ := hok
      refine ⟨hrows.symm, ?_, ?_, hnull, ?_, ?_, ?_, ?_, ?_, ?_, ?_, ?_,
              ?_, ?_, ?_, ?_, ?_, ?_, ?_, ?_, ?_⟩
      · rw [← hdb]
        have hft :
            (fun u => if taskMatch uid tid u then updateRow u p now else u) t
              = updateRow t p now := by simp [hm]
        rw [← hft]
        exact List.mem_map_of_mem _ ht
      · intro u hu hnm
        rw [← hdb]
        have hfu :
            (fun u => if taskMatch uid tid u then updateRow u p now else u) u
              = u := by simp [taskMatch_eq_false.mpr hnm]
        rw [← hfu]
        exact List.mem_map_of_mem _ hu
      · intro s hs; simp [updateRow, hs]
      · intro hn; simp [updateRow, hn]
      · intro v hv; simp [updateRow, applyCol, hv]
      · intro hn; simp [updateRow, applyCol, hn]
      · intro v hv; simp [updateRow, applyCol, hv]
      · intro hn; simp [updateRow, applyCol, hn]
      · intro v hv; simp [updateRow, applyCol, hv]
      · intro hn; simp [updateRow, applyCol, hn]
      · intro v hv; simp [updateRow, applyCol, hv]
      · intro hn; simp [updateRow, applyCol, hn]
      · simp [updateRow]
      · simp [updateRow]
      · simp [updateRow]
      · simp [updateRow]
      · simp [updateRow]
      · simp [updateRow]
      · simp [updateRow]

/-- Claim C6, witness: patching only `{status: "DONE"}` on the owner's task
succeeds and the returned row is the SET-clause rewrite of the stored row
(status and updated_at changed, everything else kept). -/
theorem C6_update_partial_semantics_witness :
    [(⟨1, 1, "t0", none, none, some "MEDIUM", some "DONE",
       none, none, false, 0, 9⟩ : TaskRow)]
      = [updateRow
          ⟨1, 1, "t0", none, none, some "MEDIUM", some "TODO",
           none, none, false, 0, 0⟩
          ⟨none, none, none, none, some (some "DONE")⟩ 9] :=
  (C6_update_partial_semantics
    [⟨1, 1, "t0", none, none, some "MEDIUM", some "TODO",
      none, none, false, 0, 0⟩] 1 1
    ⟨none, none, none, none, some (some "DONE")⟩ 9
    [⟨1, 1, "t0", none, none, some "MEDIUM", some "DONE",
      none, none, false, 0, 9⟩]
    [⟨1, 1, "t0", none, none, some "MEDIUM", some "DONE",
      none, none, false, 0, 9⟩]
    ⟨1, 1, "t0", none, none, some "MEDIUM", some "TODO",
     none, none, false, 0, 0⟩
    (by simp) rfl rfl (by simp) rfl).1

/-- Claim C8, counterexample: the status restriction is keyed on JavaScript
truthiness (`if (status)`), not on presence.  With the supplied filter
`status=""` the handler runs the unfiltered query: the owner's only task has
status "DONE", which does not equal the supplied filter "", yet it is
returned — so "restricted to those whose status equals the filter exactly
when a status filter is supplied" fails at this input. -/
theorem C8_empty_status_filter_ignored :
    listTasks
      [⟨1, 1, "t", none, none, some "MEDIUM", some "DONE",
        none, none, false, 0, 0⟩] 1 (some "")
      = ([⟨1, 1, "t", none, none, some "MEDIUM", some "DONE",
           none, none, false, 0, 0⟩], 1) ∧
    (some "DONE" : Option String) ≠ some "" :=
  ⟨rfl, by decide⟩

/-- Claim C8 (amended): list returns exactly the tasks owned by the caller —
restricted to an exact status match exactly when a non-empty status filter
is supplied (an empty-string filter is falsy and behaves as no filter) —
ordered by created_at descending, an empty result being a normal answer, and
the returned total equals the length of the returned sequence. -/
theorem C8_list_tasks_spec (db : List TaskRow) (uid : Nat)
    (q : Option String) :
    (∀ t : TaskRow, t ∈ (listTasks db uid q).1 ↔
        (t ∈ db ∧ t.user_id = uid ∧
          ∀ s, q = some s → s ≠ "" → t.status = some s)) ∧
    List.Sorted createdDesc (listTasks db uid q).1 ∧
    (listTasks db uid q).2 = (listTasks db uid q).1.length := by
  refine ⟨?_, ?_, rfl⟩
  · intro t
    match q with
    | none =>
        simp [listTasks, jsPresent, List.mem_insertionSort, List.mem_filter,
          and_assoc]
    | some s =>
        by_cases hs : s = ""
        · subst hs
          simp [listTasks, jsPresent, List.mem_insertionSort,
            List.mem_filter, and_assoc]
        · simp [listTasks, jsPresent, hs, List.mem_insertionSort,
            List.mem_filter, and_assoc]
  · by_cases hq : jsPresent q
    · simp only [listTasks, hq, if_true]
      exact List.sorted_insertionSort createdDesc _
    · simp only [listTasks, hq, if_false, Bool.false_eq_true]
      exact List.sorted_insertionSort createdDesc _

/-- Claim C10, counterexample: the claim as stated covers every recognized
field, but `title` is a NOT NULL column — a patch of exactly `{title: null}`
against the caller's own task is treated as present (so the 400 empty-patch
answer is not taken), yet the store rejects the assignment and the handler
answers 500 "Update failed" with the row unchanged, instead of setting the
column to null. -/
theorem C10_null_title_rejected :
    updateTask
      [⟨1, 1, "t0", none, none, some "MEDIUM", some "TODO",
        none, none, false, 0, 0⟩] 1 1
      ⟨some none, none, none, none, none⟩ 9
      = (.error ⟨500, "Update failed"⟩,
         [⟨1, 1, "t0", none, none, some "MEDIUM", some "TODO",
           none, none, false, 0, 0⟩]) := rfl

/-- Claim C10 (amended): a recognized field explicitly set to null is
treated as present (only strictly-absent fields are left unchanged); for the
nullable columns (description, category, priority, status) the column is set
to null on the matching row, while a null `title` — though still treated as
present — is rejected by the store's NOT NULL constraint: the update fails
with 500 and the table is unchanged. -/
theorem C10_null_field_semantics (db : List TaskRow) (uid tid : Nat)
    (t : TaskRow) (p : Patch) (now : Nat)
    (ht : t ∈ db) (hid : t.id = tid) (hown : t.user_id = uid) :
    (p.description = some none → (updateRow t p now).description = none) ∧
    (p.category = some none → (updateRow t p now).category = none) ∧
    (p.priority = some none → (updateRow t p now).priority = none) ∧
    (p.status = some none → (updateRow t p now).status = none) ∧
    (p.description = none →
      (updateRow t p now).description = t.description) ∧
    (p.category = none → (updateRow t p now).category = t.category) ∧
    (p.priority = none → (updateRow t p now).priority = t.priority) ∧
    (p.status = none → (updateRow t p now).status = t.status) ∧
    (p.title = none → (updateRow t p now).title = t.title) ∧
    (p.title = some none →
      updateTask db uid tid p now = (.error ⟨500, "Update failed"⟩, db)) := by
  refine ⟨fun h => by simp [updateRow, applyCol, h],
          fun h => by simp [updateRow, applyCol, h],
          fun h => by simp [updateRow, applyCol, h],
          fun h => by simp [updateRow, applyCol, h],
          fun h => by simp [updateRow, applyCol, h],
          fun h => by simp [updateRow, applyCol, h],
          fun h => by simp [updateRow, applyCol, h],
          fun h => by simp [updateRow, applyCol, h],
          fun h => by simp [updateRow, h],
          fun h => ?_⟩
  have hm : taskMatch uid tid t = true := taskMatch_eq_true.mpr ⟨hid, hown⟩
  have hne : Patch.isEmpty p = false := by simp [Patch.isEmpty, h]
  have hmem : t ∈ db.filter (taskMatch uid tid) :=
    List.mem_filter.mpr ⟨ht, hm⟩
  have hlen : (db.filter (taskMatch uid tid)).length ≠ 0 := by
    intro h0
    rw [List.length_eq_zero] at h0
    rw [h0] at hmem
    cases hmem
  simp [updateTask, hne, h, hlen]

/-- Claim C10 (amended), witness: a patch setting `title` to null and
`description` to null against the caller's task is treated as non-empty but
fails on the NOT NULL title column, leaving the table unchanged. -/
theorem C10_null_field_semantics_witness :
    updateTask
      [⟨1, 1, "t0", none, some "old", some "MEDIUM", some "TODO",
        none, none, false, 0, 0⟩] 1 1
      ⟨some none, some none, none, none, none⟩ 9
      = (.error ⟨500, "Update failed"⟩,
         [⟨1, 1, "t0", none, some "old", some "MEDIUM", some "TODO",
           none, none, false, 0, 0⟩]) :=
  (C10_null_field_semantics
    [⟨1, 1, "t0", none, some "old", some "MEDIUM", some "TODO",
      none, none, false, 0, 0⟩] 1 1
    ⟨1, 1, "t0", none, some "old", some "MEDIUM", some "TODO",
     none, none, false, 0, 0⟩
    ⟨some none, some none, none, none, none⟩ 9
    (by simp) rfl rfl).2.2.2.2.2.2.2.2.2 rfl
